import Mathlib

/-
Verification of the run-until-done agent driver loop (main.py) against its
natural-language specification.

The embedding models:
  - JSON values as produced by json.load (`Json`);
  - Python subscripting semantics on the value returned by check_state,
    including the TypeError raised when subscripting None or a non-dict and
    the KeyError raised on a missing dict key (`pyGetItem`);
  - check_state, which opens agent_state/agent_state.json and returns None
    when the file is missing (FileNotFoundError) or its content is not JSON
    (json.JSONDecodeError); the file system is an `Option String` (no file
    or its textual content) and json.load is an abstract parameter
    `parse : String -> Option Json` (none models a JSONDecodeError);
  - run_claude_code, which builds a fixed command line around the prompt,
    runs the subprocess (an oracle `List String -> CompletedProcess`) and
    returns the captured stdout unconditionally;
  - one iteration of the while loop (`loopStep`): subscript
    state["next_step_prompt"], invoke the agent once with it, then compare
    state["status"] against the string "completed" on the SAME state value
    that was read at the start of the iteration;
  - the whole loop as a fuel-indexed run over the sequence of states the
    successive check_state calls observe (`runLoop`);
  - the interactive NEED_PLAN flag: input().strip().lower() == "true",
    with Python str.strip modelled on ASCII whitespace and str.lower on
    ASCII letters (`need_plan_of`).
-/

namespace Alpine

/-- JSON values as returned by json.load.  Numbers are modelled as integers,
which suffices for the fields the driver inspects (they are never numeric). -/
inductive Json where
  | null : Json
  | bool : Bool → Json
  | num : Int → Json
  | str : String → Json
  | arr : List Json → Json
  | obj : List (String × Json) → Json

/-- Python exceptions the driver body can raise: TypeError from subscripting
None or a non-dict (and from handing a non-string argument to
subprocess.run), KeyError from a missing dict key. -/
inductive PyError where
  | typeError : PyError
  | keyError : PyError
deriving DecidableEq, Repr

/-- Lookup in a dict built by json.load from an object literal: a duplicated
key keeps the LAST binding, as dict construction overwrites earlier ones. -/
def pyDictGet (kvs : List (String × Json)) (k : String) : Option Json :=
  match kvs with
  | [] => none
  | (k1, v) :: rest =>
      match pyDictGet rest k with
      | some v1 => some v1
      | none => if k1 = k then some v else none

/-- Python subscripting `state[k]` on the value returned by check_state:
None and non-dict values raise TypeError, a dict without the key raises
KeyError, otherwise the stored value is returned. -/
def pyGetItem (s : Option Json) (k : String) : Except PyError Json :=
  match s with
  | none => .error .typeError
  | some .null => .error .typeError
  | some (.bool _) => .error .typeError
  | some (.num _) => .error .typeError
  | some (.str _) => .error .typeError
  | some (.arr _) => .error .typeError
  | some (.obj kvs) =>
      match pyDictGet kvs k with
      | some v => .ok v
      | none => .error .keyError

/-- Python `==` between a JSON-decoded value and a string literal: true
exactly when the value is that very string; comparisons across types are
False in Python, never an error. -/
def jsonStrEq (j : Json) (s : String) : Bool :=
  match j with
  | .str t => t == s
  | _ => false

/-- check_state from main.py: open agent_state/agent_state.json and
json.load it, returning None on FileNotFoundError (no file) or
json.JSONDecodeError (parse gives none), and the parsed record otherwise. -/
def check_state (parse : String → Option Json) (file : Option String) : Option Json :=
  match file with
  | none => none
  | some s =>
      match parse s with
      | none => none
      | some j => some j

/-- Reading the state file through the file system: the read returns the
parsed result and leaves the file content unchanged. -/
def check_state_fs (parse : String → Option Json) (fs : Option String) :
    Option Json × Option String :=
  (check_state parse fs, fs)

/-- Two consecutive check_state calls over the same file system: the second
read sees the file system left by the first. -/
def readTwice (parse : String → Option Json) (fs : Option String) :
    Option Json × Option Json :=
  let r1 := check_state_fs parse fs
  let r2 := check_state_fs parse r1.2
  (r1.1, r2.1)

/-- The appended system instruction from run_claude_code. -/
def systemPromptText : String :=
  "You are an expert software engineer with deep knowledge of TDD, Python, Typescript. Execute the following tasks with surgical precision while taking care not to overengineer solutions."

/-- The fixed command line run_claude_code builds around the prompt. -/
def claudeCmd (prompt : String) : List String :=
  ["claude", "-p", prompt,
   "--output-format", "text",
   "--append-system-prompt", systemPromptText,
   "--allowedTools", "mcp__linear-server__*", "mcp__context7__*",
   "Bash", "Read", "Write", "Edit", "Remove"]

/-- Result of subprocess.run with capture_output=True, text=True. -/
structure CompletedProcess where
  returncode : Int
  stdout : String
  stderr : String

/-- run_claude_code from main.py: run the fixed command with the prompt via
subprocess.run (the oracle `runner` stands for the external process) and
return result.stdout; the return code is never inspected. -/
def run_claude_code (runner : List String → CompletedProcess) (prompt : String) : String :=
  (runner (claudeCmd prompt)).stdout

/-- Control outcome of one iteration of the while loop body. -/
inductive StepResult where
  | next : StepResult
  | stop : StepResult
  | crash : PyError → StepResult
deriving DecidableEq, Repr

/-- One iteration of the while loop body: the prompts passed to
run_claude_code during the iteration, and how control leaves the body. -/
structure StepOut where
  invocations : List String
  result : StepResult
deriving DecidableEq, Repr

/-- One iteration of the while loop in main.py, applied to the state value
the iteration read via check_state.  In source order: subscript
state["next_step_prompt"] (TypeError on None or a non-dict, KeyError on a
missing key — zero invocations so far); hand the prompt to run_claude_code
(subprocess.run raises TypeError before spawning if it is not a string);
invoke; then subscript state["status"] on the SAME state value and compare
it with "completed" to decide whether continue_flag is cleared. -/
def loopStep (state : Option Json) : StepOut :=
  match pyGetItem state "next_step_prompt" with
  | .error e => ⟨[], .crash e⟩
  | .ok (.str p) =>
      match pyGetItem state "status" with
      | .error e => ⟨[p], .crash e⟩
      | .ok v => ⟨[p], if jsonStrEq v "completed" then .stop else .next⟩
  | .ok _ => ⟨[], .crash .typeError⟩

/-- Outcome of running the driver loop for a given amount of fuel:
still iterating after the given number of completed iterations, exited the
loop normally at that iteration, or died there with an unhandled Python
exception. -/
inductive RunOutcome where
  | running : Nat → RunOutcome
  | done : Nat → RunOutcome
  | crashed : Nat → PyError → RunOutcome
deriving DecidableEq, Repr

/-- The while loop of main.py run for `fuel` iterations; `reads n` is the
state value the check_state call of iteration n+1 returns (the state file
is rewritten externally between iterations, so the successive reads form an
arbitrary sequence). -/
def runLoop (reads : Nat → Option Json) : Nat → RunOutcome
  | 0 => .running 0
  | n + 1 =>
      match runLoop reads n with
      | .running k =>
          match (loopStep (reads k)).result with
          | .next => .running (k + 1)
          | .stop => .done (k + 1)
          | .crash e => .crashed (k + 1) e
      | o => o

/-- The loop over raw file contents: each iteration reads the current
content of the state file and parses it exactly as check_state does. -/
def runLoopFiles (parse : String → Option Json) (files : Nat → Option String)
    (fuel : Nat) : RunOutcome :=
  runLoop (fun n => check_state parse (files n)) fuel

/-- A state value carrying a usable prompt and a status that is a string
other than "completed": the shape under which the spec says one more
iteration must follow. -/
def ValidNonCompleted (s : Option Json) : Prop :=
  ∃ kvs p st, s = some (.obj kvs)
    ∧ pyDictGet kvs "next_step_prompt" = some (.str p)
    ∧ pyDictGet kvs "status" = some (.str st)
    ∧ st ≠ "completed"

/-- A state value carrying a usable prompt and the status "completed". -/
def ValidCompleted (s : Option Json) : Prop :=
  ∃ kvs p, s = some (.obj kvs)
    ∧ pyDictGet kvs "next_step_prompt" = some (.str p)
    ∧ pyDictGet kvs "status" = some (.str "completed")

/-- Whether a state value, as freshly read from the file, carries the
status "completed" (False when reading it would raise, matching a reader
that cannot observe a status there). -/
def statusCompleted (s : Option Json) : Bool :=
  match pyGetItem s "status" with
  | .ok j => jsonStrEq j "completed"
  | .error _ => false

/-- The state record of the specification scenario: next step "run tests",
status "in_progress". -/
def stInProgress : Json :=
  .obj [("next_step_prompt", .str "run tests"), ("status", .str "in_progress")]

/-- A state record whose status is "completed". -/
def stCompleted : Json :=
  .obj [("next_step_prompt", .str "wrap up"), ("status", .str "completed")]

/-- A state record with the out-of-enum status "failed". -/
def stFailed : Json :=
  .obj [("next_step_prompt", .str "retry the build"), ("status", .str "failed")]

/-- Read sequence for the termination scenario: first read in progress,
every later read completed. -/
def readsW (n : Nat) : Option Json :=
  if n = 0 then some stInProgress else some stCompleted

/-- Concrete stand-in for json.load in witnesses: one string parses to an
object, everything else is a decode error. -/
def parseW (s : String) : Option Json :=
  if s = "ok" then some (.obj [("status", .str "completed")]) else none

/-- ASCII whitespace stripped by Python str.strip (space, tab, newline,
carriage return, vertical tab, form feed). -/
def isPySpace (c : Char) : Bool :=
  c == ' ' || c == '\t' || c == '\n' || c == '\r' || c == '\x0b' || c == '\x0c'

/-- Python str.strip() on ASCII whitespace: drop it from both ends. -/
def pyStrip (s : String) : String :=
  ⟨((s.data.dropWhile isPySpace).reverse.dropWhile isPySpace).reverse⟩

/-- Python str.lower() on ASCII letters. -/
def pyLower (s : String) : String :=
  ⟨s.data.map Char.toLower⟩

/-- The NEED_PLAN flag of main.py: the operator reply, stripped and
lowercased, compared with the string "true". -/
def need_plan_of (reply : String) : Bool :=
  pyLower (pyStrip reply) == "true"

/-- The observable run of the whole script after the two interactive
inputs: the planning prompts sent before the loop (one iff NEED_PLAN, built
as "/make_plan " followed by the task), the captured planning outputs, and
the loop outcome, which does not depend on the planning phase at all. -/
structure DriverRun where
  planningPrompts : List String
  planningOutputs : List String
  loopOutcome : RunOutcome

/-- The script body after input(): optional planning invocation, then the
while loop. -/
def driverRun (runner : List String → CompletedProcess) (need_plan : Bool)
    (linear_issue : String) (reads : Nat → Option Json) (fuel : Nat) : DriverRun :=
  let prompts := if need_plan then ["/make_plan " ++ linear_issue] else []
  ⟨prompts, prompts.map (run_claude_code runner), runLoop reads fuel⟩

/-- Unfolding of one loop iteration. -/
theorem runLoop_succ (reads : Nat → Option Json) (n : Nat) :
    runLoop reads (n + 1) =
      match runLoop reads n with
      | .running k =>
          match (loopStep (reads k)).result with
          | .next => .running (k + 1)
          | .stop => .done (k + 1)
          | .crash e => .crashed (k + 1) e
      | o => o := rfl

/-- On a dict with a string prompt and a string status, the iteration
invokes exactly once and continue_flag is cleared exactly on "completed". -/
theorem loopStep_eq_of_valid (kvs : List (String × Json)) (p st : String)
    (h1 : pyDictGet kvs "next_step_prompt" = some (.str p))
    (h2 : pyDictGet kvs "status" = some (.str st)) :
    loopStep (some (.obj kvs)) =
      ⟨[p], if st == "completed" then .stop else .next⟩ := by
  have e1 : pyGetItem (some (.obj kvs)) "next_step_prompt" = .ok (.str p) := by
    simp [pyGetItem, h1]
  have e2 : pyGetItem (some (.obj kvs)) "status" = .ok (.str st) := by
    simp [pyGetItem, h2]
  simp [loopStep, e1, e2, jsonStrEq]

/-- A valid non-completed state makes the iteration invoke once and loop on. -/
theorem loopStep_of_validNonCompleted (s : Option Json) (h : ValidNonCompleted s) :
    ∃ p, loopStep s = ⟨[p], .next⟩ := by
  obtain ⟨kvs, p, st, rfl, h1, h2, h3⟩ := h
  have hb : (st == "completed") = false := by
    cases hbe : st == "completed"
    · rfl
    · exact absurd (eq_of_beq hbe) h3
  exact ⟨p, by rw [loopStep_eq_of_valid kvs p st h1 h2, hb]; rfl⟩

/-- A valid completed state makes the iteration invoke once and stop. -/
theorem loopStep_of_validCompleted (s : Option Json) (h : ValidCompleted s) :
    ∃ p, loopStep s = ⟨[p], .stop⟩ := by
  obtain ⟨kvs, p, rfl, h1, h2⟩ := h
  exact ⟨p, by rw [loopStep_eq_of_valid kvs p "completed" h1 h2]; rfl⟩

/-- As long as every read state steps to another iteration, the loop is
still running after any number of iterations. -/
theorem runLoop_running (reads : Nat → Option Json) (k : Nat)
    (h : ∀ n, n < k → (loopStep (reads n)).result = .next) :
    runLoop reads k = .running k := by
  induction k with
  | zero => rfl
  | succ n ih =>
      have hr : runLoop reads n = .running n :=
        ih (fun m hm => h m (Nat.lt_succ_of_lt hm))
      simp [runLoop_succ, hr, h n (Nat.lt_succ_self n)]

/-- Claim C1 (code bug evidence): when the state file is absent or
unreadable, check_state returns None, and the very first loop iteration
then crashes with an unhandled TypeError while subscripting None — the
driver never reaches a recovery path, contrary to the specification. -/
theorem c1_absent_state_crashes (parse : String → Option Json) :
    check_state parse none = none
    ∧ loopStep none = ⟨[], .crash .typeError⟩
    ∧ runLoopFiles parse (fun _ => none) 1 = .crashed 1 .typeError :=
  ⟨rfl, rfl, rfl⟩

/-- Claim C2 (counterexample): with the iteration reading the scenario
state (status "in_progress") while the file after the invocation holds a
"completed" status, the claimed equivalence — the driver transitions to
Done exactly when the freshly re-read post-invocation status is
"completed" — is false: the re-read status is "completed", yet the
iteration loops on, because the code checks the status of the state it
read BEFORE the invocation. -/
theorem c2_counterexample :
    ¬ (((loopStep (some stInProgress)).result = .stop)
        ↔ statusCompleted (some stCompleted) = true) := by
  decide

/-- Claim C2 (amended): the driver does not re-read the state after the
invocation; whenever the state read at the start of the iteration carries
a usable prompt, it transitions to Done exactly when the status of that
pre-invocation state is the string "completed". -/
theorem c2_amended (kvs : List (String × Json)) (p : String)
    (h1 : pyDictGet kvs "next_step_prompt" = some (.str p)) :
    (loopStep (some (.obj kvs))).result = .stop
      ↔ pyDictGet kvs "status" = some (.str "completed") := by
  have e1 : pyGetItem (some (.obj kvs)) "next_step_prompt" = .ok (.str p) := by
    simp [pyGetItem, h1]
  cases h2 : pyDictGet kvs "status" with
  | none =>
      have e2 : pyGetItem (some (.obj kvs)) "status" = .error .keyError := by
        simp [pyGetItem, h2]
      simp [loopStep, e1, e2]
  | some j =>
      have e2 : pyGetItem (some (.obj kvs)) "status" = .ok j := by
        simp [pyGetItem, h2]
      cases j with
      | str st =>
          by_cases hst : st = "completed"
          · subst hst
            simp [loopStep, e1, e2, jsonStrEq]
          · have hb : (st == "completed") = false := by
              cases hbe : st == "completed"
              · rfl
              · exact absurd (eq_of_beq hbe) hst
            simp [loopStep, e1, e2, jsonStrEq, hb, hst]
      | null => simp [loopStep, e1, e2, jsonStrEq]
      | bool b => simp [loopStep, e1, e2, jsonStrEq]
      | num n => simp [loopStep, e1, e2, jsonStrEq]
      | arr l => simp [loopStep, e1, e2, jsonStrEq]
      | obj o => simp [loopStep, e1, e2, jsonStrEq]

/-- Witness for the amended C2: on a record whose pre-invocation status is
"completed", the iteration stops. -/
theorem c2_amended_witness :
    pyDictGet [("next_step_prompt", Json.str "wrap up"), ("status", Json.str "completed")]
        "next_step_prompt" = some (.str "wrap up")
    ∧ ((loopStep (some (.obj [("next_step_prompt", Json.str "wrap up"),
          ("status", Json.str "completed")]))).result = .stop
        ↔ pyDictGet [("next_step_prompt", Json.str "wrap up"),
            ("status", Json.str "completed")] "status" = some (.str "completed")) :=
  ⟨rfl, c2_amended _ "wrap up" rfl⟩

/-- Claim C3: for every valid state record read with a status other than
"completed", the iteration performs exactly one agent invocation — with
exactly the record's next_step_prompt — and control returns to the top of
the loop, where the state is read again: never zero and never more than
one invocation per read state. -/
theorem c3_exactly_one_invocation (kvs : List (String × Json)) (p st : String)
    (h1 : pyDictGet kvs "next_step_prompt" = some (.str p))
    (h2 : pyDictGet kvs "status" = some (.str st))
    (h3 : st ≠ "completed") :
    (loopStep (some (.obj kvs))).invocations = [p]
    ∧ (loopStep (some (.obj kvs))).result = .next := by
  obtain ⟨q, hq⟩ := loopStep_of_validNonCompleted (some (.obj kvs)) ⟨kvs, p, st, rfl, h1, h2, h3⟩
  have hb : (st == "completed") = false := by
    cases hbe : st == "completed"
    · rfl
    · exact absurd (eq_of_beq hbe) h3
  have he : loopStep (some (.obj kvs)) = ⟨[p], .next⟩ := by
    rw [loopStep_eq_of_valid kvs p st h1 h2, hb]
    rfl
  rw [he]
  exact ⟨rfl, rfl⟩

/-- Witness for C3 on the scenario record with status "in_progress". -/
theorem c3_witness :
    pyDictGet [("next_step_prompt", Json.str "run tests"), ("status", Json.str "in_progress")]
        "next_step_prompt" = some (.str "run tests")
    ∧ pyDictGet [("next_step_prompt", Json.str "run tests"), ("status", Json.str "in_progress")]
        "status" = some (.str "in_progress")
    ∧ "in_progress" ≠ "completed"
    ∧ ((loopStep (some (.obj [("next_step_prompt", Json.str "run tests"),
          ("status", Json.str "in_progress")]))).invocations = ["run tests"]
        ∧ (loopStep (some (.obj [("next_step_prompt", Json.str "run tests"),
            ("status", Json.str "in_progress")]))).result = .next) :=
  ⟨rfl, rfl, by decide, c3_exactly_one_invocation _ _ _ rfl rfl (by decide)⟩

/-- Claim C4: the loop exits normally at the first iteration whose read
state carries status "completed", and has no iteration bound: on any read
sequence of valid records whose status is never "completed" the loop is
still running after every number of iterations. -/
theorem c4_termination :
    (∀ reads : Nat → Option Json,
        (∀ n, ValidNonCompleted (reads n)) →
        ∀ fuel, runLoop reads fuel = .running fuel)
    ∧ (∀ reads : Nat → Option Json, ∀ k,
        (∀ n, n < k → ValidNonCompleted (reads n)) →
        ValidCompleted (reads k) →
        runLoop reads (k + 1) = .done (k + 1)) := by
  constructor
  · intro reads h fuel
    refine runLoop_running reads fuel (fun n _ => ?_)
    obtain ⟨p, hp⟩ := loopStep_of_validNonCompleted (reads n) (h n)
    rw [hp]
  · intro reads k h hk
    have hr : runLoop reads k = .running k :=
      runLoop_running reads k (fun n hn => by
        obtain ⟨p, hp⟩ := loopStep_of_validNonCompleted (reads n) (h n hn)
        rw [hp])
    obtain ⟨p, hp⟩ := loopStep_of_validCompleted (reads k) hk
    simp [runLoop_succ, hr, hp]

/-- Witness for C4: a constant in-progress sequence is still running after
three iterations, and the scenario sequence (in progress, then completed)
exits normally after its second iteration. -/
theorem c4_witness :
    ValidNonCompleted (some stInProgress)
    ∧ runLoop (fun _ => some stInProgress) 3 = .running 3
    ∧ ValidCompleted (readsW 1)
    ∧ runLoop readsW 2 = .done 2 := by
  have hnc : ValidNonCompleted (some stInProgress) :=
    ⟨_, _, _, rfl, rfl, rfl, by decide⟩
  have hc : ValidCompleted (readsW 1) := ⟨_, _, rfl, rfl, rfl⟩
  refine ⟨hnc, c4_termination.1 _ (fun _ => hnc) 3, hc, ?_⟩
  refine c4_termination.2 readsW 1 (fun n hn => ?_) hc
  have hn0 : n = 0 := Nat.lt_one_iff.mp hn
  subst hn0
  exact ⟨_, _, _, rfl, rfl, rfl, by decide⟩

/-- Claim C5: the state reader never raises to its caller on a missing
file or on content json.load rejects — both produce None — and on content
that parses it returns the parsed record. -/
theorem c5_reader_total (parse : String → Option Json) :
    check_state parse none = none
    ∧ (∀ s, parse s = none → check_state parse (some s) = none)
    ∧ (∀ s j, parse s = some j → check_state parse (some s) = some j) := by
  refine ⟨rfl, fun s hs => ?_, fun s j hj => ?_⟩
  · simp [check_state, hs]
  · simp [check_state, hj]

/-- Witness for C5 with a concrete parser: a rejected content yields None
and an accepted one yields its parse. -/
theorem c5_witness :
    parseW "oops" = none
    ∧ check_state parseW (some "oops") = none
    ∧ parseW "ok" = some (.obj [("status", .str "completed")])
    ∧ check_state parseW (some "ok") = some (.obj [("status", .str "completed")]) :=
  ⟨rfl, (c5_reader_total parseW).2.1 "oops" rfl, rfl,
    (c5_reader_total parseW).2.2 "ok" _ rfl⟩

/-- Claim C6: the invoker returns exactly the captured stdout of the
subprocess run on the fixed command line, for every prompt and every
subprocess behaviour; in particular two subprocess outcomes with the same
stdout but different exit statuses produce the same returned text — a
non-zero exit status is not treated specially. -/
theorem c6_invoker_thin :
    (∀ (runner : List String → CompletedProcess) (prompt : String),
        run_claude_code runner prompt = (runner (claudeCmd prompt)).stdout)
    ∧ (∀ (r1 r2 : CompletedProcess) (prompt : String), r1.stdout = r2.stdout →
        run_claude_code (fun _ => r1) prompt = run_claude_code (fun _ => r2) prompt) :=
  ⟨fun _ _ => rfl, fun _ _ _ h => h⟩

/-- Witness for C6: exit statuses 0 and 1 with the same captured text give
the same returned text. -/
theorem c6_witness :
    (CompletedProcess.mk 0 "all done" "").stdout = (CompletedProcess.mk 1 "all done" "boom").stdout
    ∧ run_claude_code (fun _ => CompletedProcess.mk 0 "all done" "") "run tests"
        = run_claude_code (fun _ => CompletedProcess.mk 1 "all done" "boom") "run tests" :=
  ⟨rfl, c6_invoker_thin.2 (CompletedProcess.mk 0 "all done" "")
      (CompletedProcess.mk 1 "all done" "boom") "run tests" rfl⟩

/-- Claim C7: the planning phase runs exactly when requested — no planning
prompt when declined, exactly one prompt "/make_plan " ++ task when
requested — and the loop that follows behaves identically whatever the
planning flag and whatever the planning subprocess produced. -/
theorem c7_planning_iff_requested :
    ∀ (runner : List String → CompletedProcess) (issue : String)
      (reads : Nat → Option Json) (fuel : Nat),
      (driverRun runner false issue reads fuel).planningPrompts = []
      ∧ (driverRun runner true issue reads fuel).planningPrompts
          = ["/make_plan " ++ issue]
      ∧ (∀ (runner2 : List String → CompletedProcess) (b1 b2 : Bool),
          (driverRun runner2 b1 issue reads fuel).loopOutcome
            = (driverRun runner b2 issue reads fuel).loopOutcome) :=
  fun _ _ _ _ => ⟨rfl, rfl, fun _ _ _ => rfl⟩

/-- Claim C8: reading the state file is idempotent and deterministic — the
read leaves the file content unchanged, and two consecutive reads over the
same unchanged file yield identical values. -/
theorem c8_read_idempotent (parse : String → Option Json) (fs : Option String) :
    (check_state_fs parse fs).2 = fs
    ∧ (readTwice parse fs).1 = (readTwice parse fs).2 :=
  ⟨rfl, rfl⟩

/-- Claim C9: the needs-plan flag is true exactly when the operator reply,
stripped of surrounding whitespace and lowercased, equals "true"; in
particular "yes", "y", "1" and the empty reply all decline, while
" True " and "TRUE" request a plan. -/
theorem c9_need_plan :
    (∀ s, need_plan_of s = true ↔ pyLower (pyStrip s) = "true")
    ∧ need_plan_of "yes" = false
    ∧ need_plan_of "y" = false
    ∧ need_plan_of "1" = false
    ∧ need_plan_of "" = false
    ∧ need_plan_of " True " = true
    ∧ need_plan_of "TRUE" = true := by
  refine ⟨fun s => ?_, rfl, rfl, rfl, rfl, rfl, rfl⟩
  simp [need_plan_of]

/-- Claim C10: the driver never validates the status against the enum —
for every record whose status is any string other than exactly
"completed", such as "failed" or "Completed", the iteration invokes and
loops on rather than stopping or raising. -/
theorem c10_no_status_validation (kvs : List (String × Json)) (p st : String)
    (h1 : pyDictGet kvs "next_step_prompt" = some (.str p))
    (h2 : pyDictGet kvs "status" = some (.str st))
    (h3 : st ≠ "completed") :
    (loopStep (some (.obj kvs))).result = .next := by
  obtain ⟨q, hq⟩ := loopStep_of_validNonCompleted (some (.obj kvs)) ⟨kvs, p, st, rfl, h1, h2, h3⟩
  rw [hq]

/-- Witness for C10 on a record whose status is the out-of-enum label
"failed": the loop continues. -/
theorem c10_witness :
    pyDictGet [("next_step_prompt", Json.str "retry the build"), ("status", Json.str "failed")]
        "next_step_prompt" = some (.str "retry the build")
    ∧ pyDictGet [("next_step_prompt", Json.str "retry the build"), ("status", Json.str "failed")]
        "status" = some (.str "failed")
    ∧ "failed" ≠ "completed"
    ∧ (loopStep (some (.obj [("next_step_prompt", Json.str "retry the build"),
        ("status", Json.str "failed")]))).result = .next :=
  ⟨rfl, rfl, by decide, c10_no_status_validation _ _ _ rfl rfl (by decide)⟩

end Alpine
